import Mathlib

/-
Verification of the ws-backend real-time relay (routers/vr.js and its sibling
revisions).  The repository contains three near-duplicate revisions of the
`WebSocketService` class:
  * `V1`  : the first revision in routers/vr.js (subscriptions, truthiness
            checks in the counter handler, the outbound send API with the
            pickup-zone validation commented out);
  * `V2`  : the second revision concatenated in routers/vr.js (no
            subscription handlers, `!== undefined` presence checks,
            hand-pickup and emergency-stop handlers);
  * `P0`  : the revision in src/unnamed/part_000 (sorted-objects handler
            broadcasting to topic subscribers, pickup-zone validation active).
Functions whose text is identical in every revision are defined once at the
top level of the `WsBackend` namespace.

JavaScript values are embedded as `JSValue` (rationals for JS numbers; the
relay never produces NaN/Infinity on the modelled paths).  A JS object that
is serialised by `JSON.stringify` is a `JSData.obj` field list in source
order; `JSON.stringify` drops keys whose value is `undefined`, which the
embedding mirrors by `optField`.  A JS `undefined` passed where data is
expected is `JSData.undef`.  Handlers are pure: they take the destructured
message fields (`Option JSValue`, `none` = absent/undefined), the sender id
and the current ISO timestamp, and return the list of transport calls they
make (`OutEvent`).  The registry (`this.clients` Map) is an insertion-ordered
association list; the broadcast primitives fold over it exactly as
`Map.prototype.forEach` visits it, deleting non-open entries in-place.
-/

namespace WsBackend

/-- JavaScript runtime values flowing through the relay.  `strs` is an array
of strings (only used for the `subscriptions` list in confirmation frames). -/
inductive JSValue where
  | num (q : ℚ)
  | str (s : String)
  | bool (b : Bool)
  | null
  | strs (l : List String)
  deriving DecidableEq, Repr

/-- JavaScript truthiness of a defined value. -/
def truthy : JSValue → Bool
  | .num q => decide (q ≠ 0)
  | .str s => decide (s ≠ "")
  | .bool b => b
  | .null => false
  | .strs _ => true

/-- JavaScript truthiness of a possibly-undefined value (`none` = undefined). -/
def otruthy : Option JSValue → Bool
  | some v => truthy v
  | none => false

/-- Data handed to `ws.send` after `JSON.stringify`: either a JSON object
given as its field list in source order, or JS `undefined`. -/
inductive JSData where
  | obj (fields : List (String × JSValue))
  | undef
  deriving DecidableEq, Repr

/-- Field list contributed by one possibly-undefined object property:
`JSON.stringify` drops a key whose value is `undefined`. -/
def optField (k : String) (v : Option JSValue) : List (String × JSValue) :=
  match v with
  | some x => [(k, x)]
  | none => []

/-- One transport call made by a handler: a `sendToClient`, a
`broadcastExcluding` or a `broadcastToSubscription` invocation. -/
inductive OutEvent where
  | sent (dst : String) (data : JSData)
  | broadcastExc (excl : String) (data : JSData)
  | broadcastTopic (topic : String) (data : JSData)
  deriving DecidableEq, Repr

/-- Whether the event is a direct `sendToClient` call. -/
def OutEvent.isSent : OutEvent → Bool
  | .sent _ _ => true
  | _ => false

/-- Whether the event is one of the broadcast primitives. -/
def OutEvent.isBroadcast : OutEvent → Bool
  | .sent _ _ => false
  | _ => true

abbrev ClientId := String

/-- State the registry keeps per client: the `ws.readyState` of the
underlying socket and the `subscriptions` Set in insertion order. -/
structure Client where
  readyState : Nat
  subscriptions : List String
  deriving DecidableEq, Repr

/-- The `WebSocket.OPEN` ready-state constant. -/
def WS_OPEN : Nat := 1

/-- The `this.clients` Map, as its insertion-ordered entry list. -/
abbrev Registry := List (ClientId × Client)

/-- Result of one broadcast primitive: the registry after in-loop eviction
and the ids written to, in iteration order (`sentCount` is its length). -/
structure SendOutcome where
  clients : Registry
  delivered : List ClientId
  deriving DecidableEq, Repr

/-- The `sentCount` counter returned by each broadcast primitive. -/
def SendOutcome.sentCount (o : SendOutcome) : Nat := o.delivered.length

/-- Lookup `this.clients.get(clientId)`. -/
def lookup (st : Registry) (cid : ClientId) : Option Client :=
  (st.find? (fun p => p.1 == cid)).map (fun p => p.2)

/-- Translation of `sendToClient`: the write happens iff the client is
registered and its socket is open; the registry is not mutated. -/
def sendToClient (cid : ClientId) (st : Registry) : Bool :=
  match lookup st cid with
  | some c => c.readyState == WS_OPEN
  | none => false

/-- Translation of `broadcast(data)`: send to every open client, delete any
client whose socket is not open. -/
def broadcast (st : Registry) : SendOutcome :=
  match st with
  | [] => ⟨[], []⟩
  | (cid, c) :: rest =>
    let o := broadcast rest
    if c.readyState = WS_OPEN then
      ⟨(cid, c) :: o.clients, cid :: o.delivered⟩
    else
      ⟨o.clients, o.delivered⟩

/-- Translation of `broadcastExcluding(excludeClientId, data)`: send to every
open client other than the excluded one; delete any non-open client
(including the excluded one when it is non-open). -/
def broadcastExcluding (ex : ClientId) (st : Registry) : SendOutcome :=
  match st with
  | [] => ⟨[], []⟩
  | (cid, c) :: rest =>
    let o := broadcastExcluding ex rest
    if cid ≠ ex ∧ c.readyState = WS_OPEN then
      ⟨(cid, c) :: o.clients, cid :: o.delivered⟩
    else if c.readyState ≠ WS_OPEN then
      ⟨o.clients, o.delivered⟩
    else
      ⟨(cid, c) :: o.clients, o.delivered⟩

/-- Translation of `broadcastToSubscription(subscriptionType, data)`: send to
every open client whose subscription set contains the topic; delete any
non-open client. -/
def broadcastToSubscription (topic : String) (st : Registry) : SendOutcome :=
  match st with
  | [] => ⟨[], []⟩
  | (cid, c) :: rest =>
    let o := broadcastToSubscription topic rest
    if c.subscriptions.contains topic = true ∧ c.readyState = WS_OPEN then
      ⟨(cid, c) :: o.clients, cid :: o.delivered⟩
    else if c.readyState ≠ WS_OPEN then
      ⟨o.clients, o.delivered⟩
    else
      ⟨(cid, c) :: o.clients, o.delivered⟩

/-- Translation of `getConnectedClientsCount`. -/
def getConnectedClientsCount (st : Registry) : Nat := st.length

/-- Interpret one transport call against a registry, returning the mutated
registry and the (recipient, data) deliveries it caused, in order. -/
def runEvent (st : Registry) : OutEvent → Registry × List (ClientId × JSData)
  | .sent dst d => (st, if sendToClient dst st then [(dst, d)] else [])
  | .broadcastExc ex d =>
    let o := broadcastExcluding ex st
    (o.clients, o.delivered.map (fun b => (b, d)))
  | .broadcastTopic t d =>
    let o := broadcastToSubscription t st
    (o.clients, o.delivered.map (fun b => (b, d)))

/-- Interpret a handler's transport calls in sequence. -/
def runEvents (st : Registry) : List OutEvent → Registry × List (ClientId × JSData)
  | [] => (st, [])
  | e :: es =>
    let r := runEvent st e
    let r2 := runEvents r.1 es
    (r2.1, r.2 ++ r2.2)

/-- The uniform error reply shape used by every catch block. -/
def errorFrame (msg : String) : JSData :=
  .obj [("type", .str "error"), ("message", .str msg)]

/-- Frame broadcast on a successful state update:
`{type, ...fields, timestamp, source: senderId}` in source order. -/
def relayFrame (ty : String) (payload : List (String × JSValue)) (cid : ClientId)
    (now : String) : JSData :=
  .obj (("type", JSValue.str ty) :: payload ++
    [("timestamp", JSValue.str now), ("source", JSValue.str cid)])

/-- Confirmation frame sent to the sender:
`{type: type + "_confirmed", ...fields, timestamp}`. -/
def confirmFrame (ty : String) (payload : List (String × JSValue)) (now : String) : JSData :=
  .obj (("type", JSValue.str (ty ++ "_confirmed")) :: payload ++
    [("timestamp", JSValue.str now)])

/-- The transport-call sequence of the common handler protocol: one
`broadcastExcluding(senderId, relay)` followed by one confirmation
`sendToClient(senderId, confirm)`. -/
def protocolEvents (ty : String) (payload : List (String × JSValue)) (cid : ClientId)
    (now : String) : List OutEvent :=
  [.broadcastExc cid (relayFrame ty payload cid now),
   .sent cid (confirmFrame ty payload now)]

/-- Validation message thrown for an out-of-range speed. -/
def speedErrMsg : String := "Speed must be a number between 0.2 and 1"

/-- Validation message thrown for a bad hand side. -/
def handErrMsg : String := "hand must be \x27left\x27 or \x27right\x27"

/-- Validation message thrown for a bad hand count. -/
def handCountErrMsg : String := "handCount must be a non-negative number"

/-- Validation message thrown for a non-boolean gameStart. -/
def gameStartErrMsg : String := "gameStart must be a boolean"

/-- Validation message thrown for a bad errors count. -/
def errorsCountErrMsg : String := "Errors count must be a non-negative number"

/-- Validation message thrown for a bad pickup zone. -/
def zoneErrMsg : String := "Zone must be one of: red, green, yellow"

/-- ASCII lowering of one character, as JS `toLowerCase` acts on the ASCII
range the zone names live in. -/
def lowerChar (c : Char) : Char :=
  if c.isUpper then Char.ofNat (c.toNat + 32) else c

/-- Model of JS `String.prototype.toLowerCase` restricted to ASCII input
(the only input the zone API receives). -/
def jsToLower (s : String) : String :=
  String.mk (s.data.map lowerChar)

/-- Translation of `handleSpeedUpdate` (identical in every revision):
reject unless `speed` is a number in the closed interval [0.2, 1], then
broadcast to the others and confirm to the sender. -/
def handleSpeedUpdate (cid : ClientId) (speed : Option JSValue) (now : String) :
    List OutEvent :=
  match speed with
  | some (JSValue.num q) =>
    if q < 1/5 ∨ 1 < q then
      [.sent cid (errorFrame speedErrMsg)]
    else
      [.broadcastExc cid (.obj [("type", .str "speed_update"), ("speed", .num q),
         ("timestamp", .str now), ("source", .str cid)]),
       .sent cid (.obj [("type", .str "speed_update_confirmed"), ("speed", .num q),
         ("timestamp", .str now)])]
  | _ => [.sent cid (errorFrame speedErrMsg)]

/-- Translation of `handleGameEndUpdate` (identical in V1 and V2; the
`isGameOver` field is passed through unvalidated). -/
def handleGameEndUpdate (cid : ClientId) (isGameOver : Option JSValue) (now : String) :
    List OutEvent :=
  [.broadcastExc cid (.obj (("type", JSValue.str "game_end_update") ::
     optField "isGameOver" isGameOver ++
     [("timestamp", JSValue.str now), ("source", JSValue.str cid)])),
   .sent cid (.obj (("type", JSValue.str "game_end_update_confirmed") ::
     optField "isGameOver" isGameOver ++ [("timestamp", JSValue.str now)]))]

/-- Translation of `handleZonesToggleUpdate` (identical in every revision). -/
def handleZonesToggleUpdate (cid : ClientId) (isZoneOn : Option JSValue) (now : String) :
    List OutEvent :=
  [.broadcastExc cid (.obj (("type", JSValue.str "zones_toggle_update") ::
     optField "isZoneOn" isZoneOn ++
     [("timestamp", JSValue.str now), ("source", JSValue.str cid)])),
   .sent cid (.obj (("type", JSValue.str "zones_toggle_update_confirmed") ::
     optField "isZoneOn" isZoneOn ++ [("timestamp", JSValue.str now)]))]

/-- Translation of `handleProductsUpdate` as it appears in both vr.js
revisions (type tag `DestroyedTrash`, unvalidated `object_name`). -/
def handleProductsUpdate (cid : ClientId) (objectName : Option JSValue) (now : String) :
    List OutEvent :=
  [.broadcastExc cid (.obj (("type", JSValue.str "DestroyedTrash") ::
     optField "object_name" objectName ++
     [("timestamp", JSValue.str now), ("source", JSValue.str cid)])),
   .sent cid (.obj (("type", JSValue.str "DestroyedTrash_confirmed") ::
     optField "object_name" objectName ++ [("timestamp", JSValue.str now)]))]

/-- A counter broadcast frame `{type:'counter', <field>, timestamp, source}`. -/
def counterFrame (field : String) (v : JSValue) (cid : ClientId) (now : String) : JSData :=
  .obj [("type", JSValue.str "counter"), (field, v),
    ("timestamp", JSValue.str now), ("source", JSValue.str cid)]

/-- A zone-entered broadcast frame `{type:'zone_entered', <field>, timestamp, source}`. -/
def zoneFrame (field : String) (v : JSValue) (cid : ClientId) (now : String) : JSData :=
  .obj [("type", JSValue.str "zone_entered"), (field, v),
    ("timestamp", JSValue.str now), ("source", JSValue.str cid)]

/-- Subscribe/unsubscribe payload: `message.data` is a single topic string or
an array of topic strings. -/
inductive SubData where
  | one (s : String)
  | many (l : List String)
  deriving DecidableEq, Repr

/-- JS `Set.prototype.add` on an insertion-ordered duplicate-free list. -/
def subsAdd (subs : List String) (s : String) : List String :=
  if subs.contains s then subs else subs ++ [s]

/-- JS `Set.prototype.delete` on an insertion-ordered list. -/
def subsDelete (subs : List String) (s : String) : List String :=
  subs.filter (fun x => x != s)

/-- Replace the subscription set of the entry keyed `cid` (the Map holds at
most one entry per key; mapping over all entries is key-preserving). -/
def updateClientSubs (st : Registry) (cid : ClientId) (f : List String → List String) :
    Registry :=
  st.map (fun p =>
    if p.1 = cid then
      (p.1, { readyState := p.2.readyState, subscriptions := f p.2.subscriptions })
    else p)

/-- Current subscription list of a client (`Array.from(client.subscriptions)`). -/
def getSubs (st : Registry) (cid : ClientId) : List String :=
  match lookup st cid with
  | some c => c.subscriptions
  | none => []

/-- The `Array.isArray` branch of `handleSubscription`: add each topic of an
array, or the single topic, to the set. -/
def subApply (d : SubData) (subs : List String) : List String :=
  match d with
  | .many l => l.foldl subsAdd subs
  | .one s => subsAdd subs s

/-- The `Array.isArray` branch of `handleUnsubscription`. -/
def unsubApply (d : SubData) (subs : List String) : List String :=
  match d with
  | .many l => l.foldl subsDelete subs
  | .one s => subsDelete subs s

/-- Translation of `handleSubscription` (identical in V1 and P0): no effect
when the client id is unknown; otherwise add each topic to the set and
confirm to the requester with the current set. -/
def handleSubscription (cid : ClientId) (d : SubData) (st : Registry) :
    Registry × List OutEvent :=
  match lookup st cid with
  | none => (st, [])
  | some _ =>
    let st2 := updateClientSubs st cid (subApply d)
    (st2, [.sent cid (.obj [("type", JSValue.str "subscription_confirmed"),
      ("subscriptions", JSValue.strs (getSubs st2 cid))])])

/-- Translation of `handleUnsubscription` (identical in V1 and P0). -/
def handleUnsubscription (cid : ClientId) (d : SubData) (st : Registry) :
    Registry × List OutEvent :=
  match lookup st cid with
  | none => (st, [])
  | some _ =>
    let st2 := updateClientSubs st cid (unsubApply d)
    (st2, [.sent cid (.obj [("type", JSValue.str "unsubscription_confirmed"),
      ("subscriptions", JSValue.strs (getSubs st2 cid))])])

namespace V1

/-- Translation of V1's `handleTableUpdate`: reads `debit`, relays it as a
`debit_update` with no validation. -/
def handleTableUpdate (cid : ClientId) (debit : Option JSValue) (now : String) :
    List OutEvent :=
  [.broadcastExc cid (.obj (("type", JSValue.str "debit_update") ::
     optField "debit" debit ++
     [("timestamp", JSValue.str now), ("source", JSValue.str cid)])),
   .sent cid (.obj (("type", JSValue.str "debit_update_confirmed") ::
     optField "debit" debit ++ [("timestamp", JSValue.str now)]))]

/-- Translation of V1's `handleGameStartUpdate`: reads `isGameStarted`,
relays it with no validation. -/
def handleGameStartUpdate (cid : ClientId) (isGameStarted : Option JSValue)
    (now : String) : List OutEvent :=
  [.broadcastExc cid (.obj (("type", JSValue.str "game_start_update") ::
     optField "isGameStarted" isGameStarted ++
     [("timestamp", JSValue.str now), ("source", JSValue.str cid)])),
   .sent cid (.obj (("type", JSValue.str "game_start_update_confirmed") ::
     optField "isGameStarted" isGameStarted ++ [("timestamp", JSValue.str now)]))]

/-- Translation of V1's `handleCountersUpdate`: each field is tested with JS
truthiness (`if (TotalEchec)`) and the one assigned last wins; the final
`broadcastExcluding` always runs and no confirmation is ever sent. -/
def handleCountersUpdate (cid : ClientId) (tEchec tReussite tOublie : Option JSValue)
    (now : String) : List OutEvent :=
  let d0 : JSData := .obj []
  let d1 := match tEchec with
    | some v => if truthy v then counterFrame "TotalEchec" v cid now else d0
    | none => d0
  let d2 := match tReussite with
    | some v => if truthy v then counterFrame "TotalReussite" v cid now else d1
    | none => d1
  let d3 := match tOublie with
    | some v => if truthy v then counterFrame "TotalOublie" v cid now else d2
    | none => d2
  [.broadcastExc cid d3]

/-- Translation of V1's `handleZoneEntered`: fields `green`, `red`, `yellow`
are tested with truthiness, `data` starts out undefined, and the broadcast
passes the literal string `'zone_entered'` as the excluded client id. -/
def handleZoneEntered (cid : ClientId) (green red yellow : Option JSValue)
    (now : String) : List OutEvent :=
  let d0 : JSData := .undef
  let d1 := match green with
    | some v => if truthy v then zoneFrame "green" v cid now else d0
    | none => d0
  let d2 := match red with
    | some v => if truthy v then zoneFrame "red" v cid now else d1
    | none => d1
  let d3 := match yellow with
    | some v => if truthy v then zoneFrame "yellow" v cid now else d2
    | none => d2
  [.broadcastExc "zone_entered" d3]

/-- Translation of V1's `sendSpeed`: throws unless the value is a number in
[0.2, 1], else returns the frame handed to `broadcast`. -/
def sendSpeed (speed : JSValue) (now : String) : Except String JSData :=
  match speed with
  | JSValue.num q =>
    if q < 1/5 ∨ 1 < q then Except.error speedErrMsg
    else Except.ok (JSData.obj [("type", .str "speed_update"), ("speed", .num q),
      ("timestamp", .str now)])
  | _ => Except.error speedErrMsg

/-- Translation of V1's `sendErrors`: throws unless the count is a
non-negative number. -/
def sendErrors (count : JSValue) (now : String) : Except String JSData :=
  match count with
  | JSValue.num q =>
    if q < 0 then Except.error errorsCountErrMsg
    else Except.ok (JSData.obj [("type", .str "errors_update"), ("count", .num q),
      ("timestamp", .str now)])
  | _ => Except.error errorsCountErrMsg

/-- Translation of V1's `sendPickUpFromZone`: the zone validation is
commented out in this revision, so any string zone is lowercased and
broadcast without an error path. -/
def sendPickUpFromZone (zone : String) (now : String) : Except String JSData :=
  Except.ok (JSData.obj [("type", JSValue.str "pickup_zone_update"),
    ("zone", JSValue.str (jsToLower zone)), ("timestamp", JSValue.str now)])

end V1

namespace V2

/-- Translation of V2's `handleTableUpdate`: reads `table`, relays it as a
`table_update` with no validation. -/
def handleTableUpdate (cid : ClientId) (table : Option JSValue) (now : String) :
    List OutEvent :=
  [.broadcastExc cid (.obj (("type", JSValue.str "table_update") ::
     optField "table" table ++
     [("timestamp", JSValue.str now), ("source", JSValue.str cid)])),
   .sent cid (.obj (("type", JSValue.str "table_update_confirmed") ::
     optField "table" table ++ [("timestamp", JSValue.str now)]))]

/-- Translation of V2's `handleGameStartUpdate`: throws unless `gameStart` is
a boolean, then relays and confirms. -/
def handleGameStartUpdate (cid : ClientId) (gameStart : Option JSValue)
    (now : String) : List OutEvent :=
  match gameStart with
  | some (JSValue.bool b) =>
    [.broadcastExc cid (.obj [("type", .str "game_start_update"),
       ("gameStart", .bool b), ("timestamp", .str now), ("source", .str cid)]),
     .sent cid (.obj [("type", .str "game_start_update_confirmed"),
       ("gameStart", .bool b), ("timestamp", .str now)])]
  | _ => [.sent cid (errorFrame gameStartErrMsg)]

/-- Translation of V2's `handleCountersUpdate`: each field is tested with
`!== undefined` and the one assigned last wins; the final
`broadcastExcluding` always runs and no confirmation is ever sent. -/
def handleCountersUpdate (cid : ClientId) (tEchec tReussite tOublie : Option JSValue)
    (now : String) : List OutEvent :=
  let d0 : JSData := .obj []
  let d1 := match tEchec with
    | some v => counterFrame "TotalEchec" v cid now
    | none => d0
  let d2 := match tReussite with
    | some v => counterFrame "TotalReussite" v cid now
    | none => d1
  let d3 := match tOublie with
    | some v => counterFrame "TotalOublie" v cid now
    | none => d2
  [.broadcastExc cid d3]

/-- Translation of V2's `handleZoneEntered`: fields `green`, `red`, `orange`
are tested with `!== undefined`; the broadcast (correctly excluding the
sender) only runs when `data` was assigned, and no confirmation is sent. -/
def handleZoneEntered (cid : ClientId) (green red orange : Option JSValue)
    (now : String) : List OutEvent :=
  let d0 : Option JSData := none
  let d1 := match green with
    | some v => some (zoneFrame "green" v cid now)
    | none => d0
  let d2 := match red with
    | some v => some (zoneFrame "red" v cid now)
    | none => d1
  let d3 := match orange with
    | some v => some (zoneFrame "orange" v cid now)
    | none => d2
  match d3 with
  | some d => [.broadcastExc cid d]
  | none => []

/-- Translation of V2's `handleHandPickupObject`: `hand` must be exactly
the string left or right, `handCount` a non-negative number; then relay and
confirm. -/
def handleHandPickupObject (cid : ClientId) (hand handCount : Option JSValue)
    (now : String) : List OutEvent :=
  match hand with
  | some (JSValue.str h) =>
    if h ≠ "left" ∧ h ≠ "right" then
      [.sent cid (errorFrame handErrMsg)]
    else
      match handCount with
      | some (JSValue.num q) =>
        if q < 0 then
          [.sent cid (errorFrame handCountErrMsg)]
        else
          [.broadcastExc cid (.obj [("type", .str "hand_pickup_object"),
             ("hand", .str h), ("handCount", .num q),
             ("timestamp", .str now), ("source", .str cid)]),
           .sent cid (.obj [("type", .str "hand_pickup_object_confirmed"),
             ("hand", .str h), ("handCount", .num q), ("timestamp", .str now)])]
      | _ => [.sent cid (errorFrame handCountErrMsg)]
  | _ => [.sent cid (errorFrame handErrMsg)]

/-- Translation of V2's `handleEmergencyStop`: `isEmergencyStop` is passed
through unvalidated, relayed and confirmed. -/
def handleEmergencyStop (cid : ClientId) (isEmergencyStop : Option JSValue)
    (now : String) : List OutEvent :=
  [.broadcastExc cid (.obj (("type", JSValue.str "emergency_stop") ::
     optField "isEmergencyStop" isEmergencyStop ++
     [("timestamp", JSValue.str now), ("source", JSValue.str cid)])),
   .sent cid (.obj (("type", JSValue.str "emergency_stop_confirmed") ::
     optField "isEmergencyStop" isEmergencyStop ++ [("timestamp", JSValue.str now)]))]

end V2

namespace P0

/-- Translation of part_000's `handleSortedObjectsUpdate`: the frame is
handed to `broadcastToSubscription('sorted_objects_update', data)` and no
confirmation is sent. -/
def handleSortedObjectsUpdate (cid : ClientId) (sortedObjectType : Option JSValue)
    (now : String) : List OutEvent :=
  [.broadcastTopic "sorted_objects_update"
    (.obj (("type", JSValue.str "sorted_objects_update") ::
      optField "sortedObjectType" sortedObjectType ++
      [("timestamp", JSValue.str now), ("source", JSValue.str cid)]))]

/-- Translation of part_000's `sendPickUpFromZone`: here the zone validation
is active — throws unless the lowercased zone is red, green or yellow. -/
def sendPickUpFromZone (zone : String) (now : String) : Except String JSData :=
  if (["red", "green", "yellow"].contains (jsToLower zone)) = true then
    Except.ok (JSData.obj [("type", JSValue.str "pickup_zone_update"),
      ("zone", JSValue.str (jsToLower zone)), ("timestamp", JSValue.str now)])
  else Except.error zoneErrMsg

end P0

/-- Specification-side reading of the counter rule in the claim: when several
of the three optional fields are present, the broadcast carries only the
last-present one in the order TotalEchec, TotalReussite, TotalOublie. -/
def lastPresentCounter (cid : ClientId) (tEchec tReussite tOublie : Option JSValue)
    (now : String) : JSData :=
  match tOublie with
  | some v => counterFrame "TotalOublie" v cid now
  | none =>
    match tReussite with
    | some v => counterFrame "TotalReussite" v cid now
    | none =>
      match tEchec with
      | some v => counterFrame "TotalEchec" v cid now
      | none => .obj []

/-- Characterisation of what V1 actually does: the last truthy field wins,
and a present but falsy field is treated as absent. -/
def lastTruthyCounter (cid : ClientId) (tEchec tReussite tOublie : Option JSValue)
    (now : String) : JSData :=
  if otruthy tOublie then counterFrame "TotalOublie" (tOublie.getD .null) cid now
  else if otruthy tReussite then counterFrame "TotalReussite" (tReussite.getD .null) cid now
  else if otruthy tEchec then counterFrame "TotalEchec" (tEchec.getD .null) cid now
  else .obj []

theorem broadcast_clients_eq (st : Registry) :
    (broadcast st).clients = st.filter (fun p => p.2.readyState == WS_OPEN) := by
  induction st with
  | nil => rfl
  | cons hd tl ih =>
    obtain ⟨cid, c⟩ := hd
    by_cases h : c.readyState = WS_OPEN <;>
      simp [broadcast, h, ih, List.filter_cons]

theorem broadcast_delivered_eq (st : Registry) :
    (broadcast st).delivered
      = (st.filter (fun p => p.2.readyState == WS_OPEN)).map Prod.fst := by
  induction st with
  | nil => rfl
  | cons hd tl ih =>
    obtain ⟨cid, c⟩ := hd
    by_cases h : c.readyState = WS_OPEN <;>
      simp [broadcast, h, ih, List.filter_cons]

theorem broadcastExcluding_clients_eq (ex : ClientId) (st : Registry) :
    (broadcastExcluding ex st).clients
      = st.filter (fun p => p.2.readyState == WS_OPEN) := by
  induction st with
  | nil => rfl
  | cons hd tl ih =>
    obtain ⟨cid, c⟩ := hd
    by_cases h : c.readyState = WS_OPEN
    · by_cases hx : cid = ex <;>
        simp [broadcastExcluding, h, hx, ih, List.filter_cons]
    · simp [broadcastExcluding, h, ih, List.filter_cons]

theorem broadcastExcluding_delivered_eq (ex : ClientId) (st : Registry) :
    (broadcastExcluding ex st).delivered
      = (st.filter (fun p => (!(p.1 == ex)) && (p.2.readyState == WS_OPEN))).map
          Prod.fst := by
  induction st with
  | nil => rfl
  | cons hd tl ih =>
    obtain ⟨cid, c⟩ := hd
    by_cases h : c.readyState = WS_OPEN
    · by_cases hx : cid = ex <;>
        simp [broadcastExcluding, h, hx, ih, List.filter_cons]
    · simp [broadcastExcluding, h, ih, List.filter_cons]

theorem broadcastToSubscription_clients_eq (topic : String) (st : Registry) :
    (broadcastToSubscription topic st).clients
      = st.filter (fun p => p.2.readyState == WS_OPEN) := by
  induction st with
  | nil => rfl
  | cons hd tl ih =>
    obtain ⟨cid, c⟩ := hd
    by_cases h : c.readyState = WS_OPEN
    · by_cases hs : topic ∈ c.subscriptions <;>
        simp [broadcastToSubscription, h, hs, ih, List.filter_cons]
    · simp [broadcastToSubscription, h, ih, List.filter_cons]

theorem broadcastToSubscription_delivered_eq (topic : String) (st : Registry) :
    (broadcastToSubscription topic st).delivered
      = (st.filter (fun p =>
          (p.2.subscriptions.contains topic) && (p.2.readyState == WS_OPEN))).map
          Prod.fst := by
  induction st with
  | nil => rfl
  | cons hd tl ih =>
    obtain ⟨cid, c⟩ := hd
    by_cases h : c.readyState = WS_OPEN
    · by_cases hs : topic ∈ c.subscriptions <;>
        simp [broadcastToSubscription, h, hs, ih, List.filter_cons]
    · simp [broadcastToSubscription, h, ih, List.filter_cons]

theorem mem_broadcastExcluding_delivered {ex B : ClientId} {st : Registry} :
    B ∈ (broadcastExcluding ex st).delivered ↔
      ∃ c, (B, c) ∈ st ∧ B ≠ ex ∧ c.readyState = WS_OPEN := by
  rw [broadcastExcluding_delivered_eq]
  constructor
  · intro h
    rcases List.mem_map.mp h with ⟨p, hp, he⟩
    rcases List.mem_filter.mp hp with ⟨hmem, hpred⟩
    simp only [Bool.and_eq_true, Bool.not_eq_true', beq_eq_false_iff_ne,
      beq_iff_eq] at hpred
    subst he
    exact ⟨p.2, by simpa using hmem, hpred.1, hpred.2⟩
  · rintro ⟨c, hmem, hne, hopen⟩
    refine List.mem_map.mpr ⟨(B, c), List.mem_filter.mpr ⟨hmem, ?_⟩, rfl⟩
    simp [hne, hopen]

theorem excluded_not_mem_delivered (ex : ClientId) (st : Registry) :
    ex ∉ (broadcastExcluding ex st).delivered := by
  rw [broadcastExcluding_delivered_eq]
  intro h
  rcases List.mem_map.mp h with ⟨p, hp, he⟩
  rcases List.mem_filter.mp hp with ⟨_, hpred⟩
  rw [he] at hpred
  simp at hpred

theorem mem_broadcastToSubscription_delivered {topic : String} {B : ClientId}
    {st : Registry} :
    B ∈ (broadcastToSubscription topic st).delivered ↔
      ∃ c, (B, c) ∈ st ∧ topic ∈ c.subscriptions ∧ c.readyState = WS_OPEN := by
  rw [broadcastToSubscription_delivered_eq]
  constructor
  · intro h
    rcases List.mem_map.mp h with ⟨p, hp, he⟩
    rcases List.mem_filter.mp hp with ⟨hmem, hpred⟩
    simp only [Bool.and_eq_true, beq_iff_eq, List.elem_iff] at hpred
    subst he
    exact ⟨p.2, by simpa using hmem, hpred.1, hpred.2⟩
  · rintro ⟨c, hmem, hsub, hopen⟩
    refine List.mem_map.mpr ⟨(B, c), List.mem_filter.mpr ⟨hmem, ?_⟩, rfl⟩
    simp [hsub, hopen]

theorem keyUnique {st : Registry} (h : (st.map Prod.fst).Nodup) {cid : ClientId}
    {c d : Client} (h1 : (cid, c) ∈ st) (h2 : (cid, d) ∈ st) : c = d := by
  induction st with
  | nil => cases h1
  | cons hd tl ih =>
    have h' : (∀ x : Client, (hd.1, x) ∉ tl) ∧ (tl.map Prod.fst).Nodup := by
      simpa using h
    rcases List.mem_cons.mp h1 with he1 | hm1
    · rcases List.mem_cons.mp h2 with he2 | hm2
      · rw [← he2] at he1
        exact (Prod.mk.injEq _ _ _ _ ▸ he1).2
      · exfalso
        refine h'.1 d ?_
        rw [← he1]
        exact hm2
    · rcases List.mem_cons.mp h2 with he2 | hm2
      · exfalso
        refine h'.1 c ?_
        rw [← he2]
        exact hm1
      · exact ih h'.2 hm1 hm2

theorem runEvents_protocol (ty : String) (payload : List (String × JSValue))
    (cid : ClientId) (now : String) (st : Registry) :
    runEvents st (protocolEvents ty payload cid now)
      = ((broadcastExcluding cid st).clients,
         ((broadcastExcluding cid st).delivered.map
            (fun b => (b, relayFrame ty payload cid now)))
          ++ (if sendToClient cid (broadcastExcluding cid st).clients then
                [(cid, confirmFrame ty payload now)] else [])) := by
  simp [runEvents, runEvent, protocolEvents]

theorem lookup_update (st : Registry) (cid : ClientId) (f : List String → List String) :
    lookup (updateClientSubs st cid f) cid
      = (lookup st cid).map (fun c => ⟨c.readyState, f c.subscriptions⟩) := by
  induction st with
  | nil => rfl
  | cons hd tl ih =>
    simp only [lookup, updateClientSubs] at ih ⊢
    by_cases hx : hd.1 = cid
    · rw [List.map_cons, if_pos hx, List.find?_cons_of_pos _ (by simpa using hx),
        List.find?_cons_of_pos _ (by simpa using hx)]
      simp
    · rw [List.map_cons, if_neg hx, List.find?_cons_of_neg _ (by simpa using hx),
        List.find?_cons_of_neg _ (by simpa using hx)]
      exact ih

theorem lookup_handleSubscription {st : Registry} {cid : ClientId} {c : Client}
    (h : lookup st cid = some c) (d : SubData) :
    lookup (handleSubscription cid d st).1 cid
      = some ⟨c.readyState, subApply d c.subscriptions⟩ := by
  simp [handleSubscription, h, lookup_update]

theorem getSubs_handleSubscription {st : Registry} {cid : ClientId} {c : Client}
    (h : lookup st cid = some c) (d : SubData) :
    getSubs (handleSubscription cid d st).1 cid = subApply d c.subscriptions := by
  simp [getSubs, lookup_handleSubscription h d]

theorem events_handleSubscription {st : Registry} {cid : ClientId} {c : Client}
    (h : lookup st cid = some c) (d : SubData) :
    (handleSubscription cid d st).2
      = [.sent cid (.obj [("type", JSValue.str "subscription_confirmed"),
          ("subscriptions",
            JSValue.strs (subApply d c.subscriptions))])] := by
  simp [handleSubscription, h, getSubs, lookup_update]

theorem lookup_handleUnsubscription {st : Registry} {cid : ClientId} {c : Client}
    (h : lookup st cid = some c) (d : SubData) :
    lookup (handleUnsubscription cid d st).1 cid
      = some ⟨c.readyState, unsubApply d c.subscriptions⟩ := by
  simp [handleUnsubscription, h, lookup_update]

theorem getSubs_handleUnsubscription {st : Registry} {cid : ClientId} {c : Client}
    (h : lookup st cid = some c) (d : SubData) :
    getSubs (handleUnsubscription cid d st).1 cid = unsubApply d c.subscriptions := by
  simp [getSubs, lookup_handleUnsubscription h d]

theorem events_handleUnsubscription {st : Registry} {cid : ClientId} {c : Client}
    (h : lookup st cid = some c) (d : SubData) :
    (handleUnsubscription cid d st).2
      = [.sent cid (.obj [("type", JSValue.str "unsubscription_confirmed"),
          ("subscriptions",
            JSValue.strs (unsubApply d c.subscriptions))])] := by
  simp [handleUnsubscription, h, getSubs, lookup_update]

theorem mem_broadcast_delivered {B : ClientId} {st : Registry} :
    B ∈ (broadcast st).delivered ↔ ∃ c, (B, c) ∈ st ∧ c.readyState = WS_OPEN := by
  rw [broadcast_delivered_eq]
  constructor
  · intro h
    rcases List.mem_map.mp h with ⟨p, hp, he⟩
    rcases List.mem_filter.mp hp with ⟨hmem, hpred⟩
    subst he
    exact ⟨p.2, by simpa using hmem, by simpa using hpred⟩
  · rintro ⟨c, hmem, hopen⟩
    refine List.mem_map.mpr ⟨(B, c), List.mem_filter.mpr ⟨hmem, ?_⟩, rfl⟩
    simpa using hopen

/-- C2: for every two distinct registered connections A and B that are both
open, `broadcastExcluding(A, m)` delivers the message to B; and for every
connection A, `broadcastExcluding(A, m)` never delivers to A itself. -/
theorem c2_broadcastExcluding_targets :
    (∀ (st : Registry) (A B : ClientId) (c : Client),
      (B, c) ∈ st → B ≠ A → c.readyState = WS_OPEN →
      B ∈ (broadcastExcluding A st).delivered)
  ∧ (∀ (st : Registry) (A : ClientId),
      A ∉ (broadcastExcluding A st).delivered) := by
  constructor
  · intro st A B c hmem hne hopen
    exact mem_broadcastExcluding_delivered.mpr ⟨c, hmem, hne, hopen⟩
  · intro st A
    exact excluded_not_mem_delivered A st

/-- Witness for C2 at a concrete two-client registry. -/
theorem c2_broadcastExcluding_targets_witness :
    "B" ∈ (broadcastExcluding "A"
        [("A", ⟨WS_OPEN, []⟩), ("B", ⟨WS_OPEN, []⟩)]).delivered
    ∧ "A" ∉ (broadcastExcluding "A"
        [("A", ⟨WS_OPEN, []⟩), ("B", ⟨WS_OPEN, []⟩)]).delivered :=
  ⟨c2_broadcastExcluding_targets.1 [("A", ⟨WS_OPEN, []⟩), ("B", ⟨WS_OPEN, []⟩)]
      "A" "B" ⟨WS_OPEN, []⟩ (by decide) (by decide) rfl,
   c2_broadcastExcluding_targets.2 [("A", ⟨WS_OPEN, []⟩), ("B", ⟨WS_OPEN, []⟩)] "A"⟩

/-- C5: `broadcastToSubscription(T, m)` delivers exactly to the registered
connections that are open and subscribed to T at call time, and to no other
connection. -/
theorem c5_broadcastToSubscription_exact :
    ∀ (T : String) (st : Registry) (B : ClientId),
      B ∈ (broadcastToSubscription T st).delivered ↔
        ∃ c, (B, c) ∈ st ∧ c.readyState = WS_OPEN ∧ T ∈ c.subscriptions := by
  intro T st B
  rw [mem_broadcastToSubscription_delivered]
  constructor <;> rintro ⟨c, h1, h2, h3⟩ <;> exact ⟨c, h1, h3, h2⟩

/-- Witness for C5: a subscribed open client receives, an unsubscribed one
does not. -/
theorem c5_broadcastToSubscription_exact_witness :
    "B" ∈ (broadcastToSubscription "a"
        [("B", ⟨WS_OPEN, ["a"]⟩), ("C", ⟨WS_OPEN, []⟩)]).delivered
    ∧ "C" ∉ (broadcastToSubscription "a"
        [("B", ⟨WS_OPEN, ["a"]⟩), ("C", ⟨WS_OPEN, []⟩)]).delivered := by
  constructor
  · exact (c5_broadcastToSubscription_exact "a"
      [("B", ⟨WS_OPEN, ["a"]⟩), ("C", ⟨WS_OPEN, []⟩)] "B").mpr
      ⟨⟨WS_OPEN, ["a"]⟩, by decide, rfl, by decide⟩
  · decide

/-- C9: every broadcast primitive evicts exactly the non-open connections
while it iterates, so a connection whose write would fail is gone from the
registry (and from the connected-clients count) when the call returns, and
eviction does not prevent delivery to the remaining open connections. -/
theorem c9_lazy_eviction :
    (∀ st, (broadcast st).clients
        = st.filter (fun p => p.2.readyState == WS_OPEN))
  ∧ (∀ ex st, (broadcastExcluding ex st).clients
        = st.filter (fun p => p.2.readyState == WS_OPEN))
  ∧ (∀ topic st, (broadcastToSubscription topic st).clients
        = st.filter (fun p => p.2.readyState == WS_OPEN))
  ∧ (∀ (st : Registry) (cid : ClientId) (c : Client),
      (st.map Prod.fst).Nodup → (cid, c) ∈ st → c.readyState ≠ WS_OPEN →
      (∀ d, (cid, d) ∉ (broadcast st).clients)
      ∧ (∀ ex d, (cid, d) ∉ (broadcastExcluding ex st).clients))
  ∧ (∀ st, getConnectedClientsCount (broadcast st).clients
        = (st.filter (fun p => p.2.readyState == WS_OPEN)).length)
  ∧ (∀ ex st (B : ClientId) (c : Client), (B, c) ∈ st → B ≠ ex →
      c.readyState = WS_OPEN → B ∈ (broadcastExcluding ex st).delivered) := by
  refine ⟨broadcast_clients_eq, broadcastExcluding_clients_eq,
    broadcastToSubscription_clients_eq, ?_, ?_, ?_⟩
  · intro st cid c hnd hmem hnop
    constructor
    · intro d hd
      rw [broadcast_clients_eq] at hd
      rcases List.mem_filter.mp hd with ⟨hmem2, hopen⟩
      have hcd : c = d := keyUnique hnd hmem hmem2
      rw [hcd] at hnop
      exact hnop (by simpa using hopen)
    · intro ex d hd
      rw [broadcastExcluding_clients_eq] at hd
      rcases List.mem_filter.mp hd with ⟨hmem2, hopen⟩
      have hcd : c = d := keyUnique hnd hmem hmem2
      rw [hcd] at hnop
      exact hnop (by simpa using hopen)
  · intro st
    rw [getConnectedClientsCount, broadcast_clients_eq]
  · intro ex st B c hmem hne hopen
    exact mem_broadcastExcluding_delivered.mpr ⟨c, hmem, hne, hopen⟩

/-- Witness for C9: a client with a closed socket is evicted by a broadcast
while the open one is still delivered to. -/
theorem c9_lazy_eviction_witness :
    (∀ d, ("D", d) ∉ (broadcast [("D", ⟨3, []⟩), ("B", ⟨WS_OPEN, []⟩)]).clients)
    ∧ getConnectedClientsCount
        (broadcast [("D", ⟨3, []⟩), ("B", ⟨WS_OPEN, []⟩)]).clients = 1
    ∧ "B" ∈ (broadcastExcluding "A" [("D", ⟨3, []⟩), ("B", ⟨WS_OPEN, []⟩)]).delivered := by
  refine ⟨?_, ?_, ?_⟩
  · exact fun d => ((c9_lazy_eviction.2.2.2.1 [("D", ⟨3, []⟩), ("B", ⟨WS_OPEN, []⟩)]
      "D" ⟨3, []⟩ (by decide) (by decide) (by decide)).1) d
  · rw [c9_lazy_eviction.2.2.2.2.1 [("D", ⟨3, []⟩), ("B", ⟨WS_OPEN, []⟩)]]
    decide
  · exact c9_lazy_eviction.2.2.2.2.2 "A" [("D", ⟨3, []⟩), ("B", ⟨WS_OPEN, []⟩)]
      "B" ⟨WS_OPEN, []⟩ (by decide) (by decide) rfl

/-- C10: a counter message with none of the three fields present still
triggers exactly one broadcast call whose payload is the empty object, with
no type, timestamp or source field, delivered to every other open client. -/
theorem c10_empty_counter_broadcast :
    (∀ (cid : ClientId) (now : String),
      V2.handleCountersUpdate cid none none none now
        = [.broadcastExc cid (JSData.obj [])])
  ∧ (∀ (cid : ClientId) (now : String) (st : Registry) (B : ClientId) (c : Client),
      (B, c) ∈ st → B ≠ cid → c.readyState = WS_OPEN →
      (B, JSData.obj []) ∈
        (runEvents st (V2.handleCountersUpdate cid none none none now)).2) := by
  constructor
  · intro cid now
    rfl
  · intro cid now st B c hmem hne hopen
    have he : V2.handleCountersUpdate cid none none none now
        = [.broadcastExc cid (JSData.obj [])] := rfl
    rw [he]
    simp only [runEvents, runEvent, List.append_nil]
    exact List.mem_map_of_mem (fun b => (b, JSData.obj []))
      (mem_broadcastExcluding_delivered.mpr ⟨c, hmem, hne, hopen⟩)

/-- Witness for C10: with sender A and another open client B, the empty
counter message delivers the empty object to B. -/
theorem c10_empty_counter_broadcast_witness :
    ("B", JSData.obj []) ∈
      (runEvents [("A", ⟨WS_OPEN, []⟩), ("B", ⟨WS_OPEN, []⟩)]
        (V2.handleCountersUpdate "A" none none none "T")).2 :=
  c10_empty_counter_broadcast.2 "A" "T"
    [("A", ⟨WS_OPEN, []⟩), ("B", ⟨WS_OPEN, []⟩)] "B" ⟨WS_OPEN, []⟩
    (by decide) (by decide) rfl

/-- C3: a speed_update is relayed iff its speed payload is a number in the
closed interval [0.2, 1]; 0.1 and 1.5 get only an error reply and no
broadcast, while 0.2 and 1.0 are accepted and handled by the full
broadcast-and-confirm protocol. -/
theorem c3_speed_bounds :
    (∀ (cid : ClientId) (now : String) (v : Option JSValue),
      ((handleSpeedUpdate cid v now).any OutEvent.isBroadcast = true ↔
        ∃ q : ℚ, v = some (JSValue.num q) ∧ 1/5 ≤ q ∧ q ≤ 1))
  ∧ (∀ (cid : ClientId) (now : String),
      handleSpeedUpdate cid (some (JSValue.num (1/10))) now
        = [.sent cid (errorFrame speedErrMsg)]
      ∧ handleSpeedUpdate cid (some (JSValue.num (3/2))) now
        = [.sent cid (errorFrame speedErrMsg)]
      ∧ handleSpeedUpdate cid (some (JSValue.num (1/5))) now
        = protocolEvents "speed_update" [("speed", JSValue.num (1/5))] cid now
      ∧ handleSpeedUpdate cid (some (JSValue.num 1)) now
        = protocolEvents "speed_update" [("speed", JSValue.num 1)] cid now) := by
  constructor
  · intro cid now v
    rcases v with _ | w
    · simp [handleSpeedUpdate, OutEvent.isBroadcast]
    · rcases w with q | s | b | _ | l
      · by_cases h : q < 1/5 ∨ 1 < q
        · simp only [handleSpeedUpdate, if_pos h, List.any_cons, List.any_nil,
            OutEvent.isBroadcast, Bool.or_false]
          constructor
          · intro hfalse
            cases hfalse
          · rintro ⟨q', hq, h1, h2⟩
            injection hq with hq2
            injection hq2 with hq3
            subst hq3
            rcases h with h | h
            · exact absurd h1 (not_le.mpr h)
            · exact absurd h2 (not_le.mpr h)
        · simp only [handleSpeedUpdate, if_neg h, List.any_cons, List.any_nil,
            OutEvent.isBroadcast, Bool.true_or]
          push_neg at h
          exact iff_of_true trivial ⟨q, rfl, h.1, h.2⟩
      · simp [handleSpeedUpdate, OutEvent.isBroadcast]
      · simp [handleSpeedUpdate, OutEvent.isBroadcast]
      · simp [handleSpeedUpdate, OutEvent.isBroadcast]
      · simp [handleSpeedUpdate, OutEvent.isBroadcast]
  · intro cid now
    refine ⟨?_, ?_, ?_, ?_⟩
    · simp only [handleSpeedUpdate]
      rw [if_pos (by norm_num : (1/10 : ℚ) < 1/5 ∨ 1 < (1/10 : ℚ))]
    · simp only [handleSpeedUpdate]
      rw [if_pos (by norm_num : (3/2 : ℚ) < 1/5 ∨ 1 < (3/2 : ℚ))]
    · simp only [handleSpeedUpdate]
      rw [if_neg (by norm_num : ¬((1/5 : ℚ) < 1/5 ∨ 1 < (1/5 : ℚ)))]
      rfl
    · simp only [handleSpeedUpdate]
      rw [if_neg (by norm_num : ¬((1 : ℚ) < 1/5 ∨ 1 < (1 : ℚ)))]
      rfl

/-- Witness for C3: speed 0.5 is relayed. -/
theorem c3_speed_bounds_witness :
    (handleSpeedUpdate "A" (some (JSValue.num (1/2))) "T").any
      OutEvent.isBroadcast = true :=
  (c3_speed_bounds.1 "A" "T" (some (JSValue.num (1/2)))).mpr
    ⟨1/2, rfl, by norm_num, by norm_num⟩

/-- C4: a hand_pickup_object is accepted iff hand is exactly the string left
or right and handCount is a non-negative number; hand up is rejected, a
negative count is rejected, and right with count 0 runs the full protocol. -/
theorem c4_hand_pickup_validation :
    (∀ (cid : ClientId) (now : String) (hand handCount : Option JSValue),
      ((V2.handleHandPickupObject cid hand handCount now).any
          OutEvent.isBroadcast = true ↔
        ((hand = some (JSValue.str "left") ∨ hand = some (JSValue.str "right"))
          ∧ ∃ q : ℚ, handCount = some (JSValue.num q) ∧ 0 ≤ q)))
  ∧ (∀ (cid : ClientId) (now : String) (handCount : Option JSValue),
      V2.handleHandPickupObject cid (some (JSValue.str "up")) handCount now
        = [.sent cid (errorFrame handErrMsg)])
  ∧ (∀ (cid : ClientId) (now : String),
      V2.handleHandPickupObject cid (some (JSValue.str "left"))
          (some (JSValue.num (-1))) now
        = [.sent cid (errorFrame handCountErrMsg)])
  ∧ (∀ (cid : ClientId) (now : String),
      V2.handleHandPickupObject cid (some (JSValue.str "right"))
          (some (JSValue.num 0)) now
        = protocolEvents "hand_pickup_object"
            [("hand", JSValue.str "right"), ("handCount", JSValue.num 0)] cid now) := by
  refine ⟨?_, ?_, ?_, ?_⟩
  · intro cid now hand handCount
    rcases hand with _ | w
    · simp [V2.handleHandPickupObject, OutEvent.isBroadcast]
    · rcases w with q | h | b | _ | l
      · simp [V2.handleHandPickupObject, OutEvent.isBroadcast]
      · by_cases hcond : h ≠ "left" ∧ h ≠ "right"
        · simp only [V2.handleHandPickupObject, if_pos hcond, List.any_cons,
            List.any_nil, OutEvent.isBroadcast, Bool.or_false]
          constructor
          · intro hfalse
            cases hfalse
          · rintro ⟨hside, _⟩
            rcases hside with hside | hside <;>
              (injection hside with e; injection e with e2; exact absurd e2
                (by rcases hcond with ⟨h1, h2⟩; first | exact h1 | exact h2))
        · have hside : h = "left" ∨ h = "right" := by
            rcases not_and_or.mp hcond with hx | hx
            · exact Or.inl (not_not.mp hx)
            · exact Or.inr (not_not.mp hx)
          rcases handCount with _ | wc
          · simp only [V2.handleHandPickupObject, if_neg hcond, List.any_cons,
              List.any_nil, OutEvent.isBroadcast, Bool.or_false]
            constructor
            · intro hfalse
              cases hfalse
            · rintro ⟨_, q, hq, _⟩
              cases hq
          · rcases wc with q | s2 | b2 | _ | l2
            · by_cases hq : q < 0
              · simp only [V2.handleHandPickupObject, if_neg hcond, if_pos hq,
                  List.any_cons, List.any_nil, OutEvent.isBroadcast, Bool.or_false]
                constructor
                · intro hfalse
                  cases hfalse
                · rintro ⟨_, q', hq', hge⟩
                  injection hq' with e
                  injection e with e2
                  subst e2
                  exact absurd hge (not_le.mpr hq)
              · simp only [V2.handleHandPickupObject, if_neg hcond, if_neg hq,
                  List.any_cons, List.any_nil, OutEvent.isBroadcast, Bool.true_or]
                refine iff_of_true trivial ⟨?_, q, rfl, not_lt.mp hq⟩
                rcases hside with rfl | rfl
                · exact Or.inl rfl
                · exact Or.inr rfl
            · simp only [V2.handleHandPickupObject, if_neg hcond, List.any_cons,
                List.any_nil, OutEvent.isBroadcast, Bool.or_false]
              constructor
              · intro hfalse
                cases hfalse
              · rintro ⟨_, q, hq, _⟩
                cases hq
            · simp only [V2.handleHandPickupObject, if_neg hcond, List.any_cons,
                List.any_nil, OutEvent.isBroadcast, Bool.or_false]
              constructor
              · intro hfalse
                cases hfalse
              · rintro ⟨_, q, hq, _⟩
                cases hq
            · simp only [V2.handleHandPickupObject, if_neg hcond, List.any_cons,
                List.any_nil, OutEvent.isBroadcast, Bool.or_false]
              constructor
              · intro hfalse
                cases hfalse
              · rintro ⟨_, q, hq, _⟩
                cases hq
            · simp only [V2.handleHandPickupObject, if_neg hcond, List.any_cons,
                List.any_nil, OutEvent.isBroadcast, Bool.or_false]
              constructor
              · intro hfalse
                cases hfalse
              · rintro ⟨_, q, hq, _⟩
                cases hq
      · simp [V2.handleHandPickupObject, OutEvent.isBroadcast]
      · simp [V2.handleHandPickupObject, OutEvent.isBroadcast]
      · simp [V2.handleHandPickupObject, OutEvent.isBroadcast]
  · intro cid now handCount
    simp only [V2.handleHandPickupObject]
    rw [if_pos (by decide : ("up" : String) ≠ "left" ∧ ("up" : String) ≠ "right")]
  · intro cid now
    simp only [V2.handleHandPickupObject]
    rw [if_neg (by decide : ¬(("left" : String) ≠ "left" ∧ ("left" : String) ≠ "right"))]
    rw [if_pos (by norm_num : (-1 : ℚ) < 0)]
  · intro cid now
    simp only [V2.handleHandPickupObject]
    rw [if_neg (by decide : ¬(("right" : String) ≠ "left" ∧ ("right" : String) ≠ "right"))]
    rw [if_neg (by norm_num : ¬((0 : ℚ) < 0))]
    rfl

/-- Witness for C4: hand right with count 2 is relayed. -/
theorem c4_hand_pickup_validation_witness :
    (V2.handleHandPickupObject "A" (some (JSValue.str "right"))
      (some (JSValue.num 2)) "T").any OutEvent.isBroadcast = true :=
  (c4_hand_pickup_validation.1 "A" "T" (some (JSValue.str "right"))
    (some (JSValue.num 2))).mpr ⟨Or.inr rfl, 2, rfl, by norm_num⟩

/-- C6: subscribe and unsubscribe have set semantics: from a fresh
registered connection, subscribing to the list a, b then unsubscribing from
a leaves exactly the set containing b, and repeating the unsubscribe is a
no-op; duplicate subscribe and duplicate unsubscribe are no-ops in general,
and each mutation sends a confirmation carrying the current set to the
requester only. -/
theorem c6_subscription_set_semantics :
    (∀ (st : Registry) (cid : ClientId) (c : Client),
      lookup st cid = some c → c.subscriptions = [] →
      getSubs (handleSubscription cid (SubData.many ["a", "b"]) st).1 cid
          = ["a", "b"]
      ∧ getSubs ((handleUnsubscription cid (SubData.one "a")
            (handleSubscription cid (SubData.many ["a", "b"]) st).1).1) cid = ["b"]
      ∧ getSubs ((handleUnsubscription cid (SubData.one "a")
            ((handleUnsubscription cid (SubData.one "a")
              (handleSubscription cid (SubData.many ["a", "b"]) st).1).1)).1) cid
          = ["b"])
  ∧ (∀ (subs : List String) (s : String),
      subsAdd (subsAdd subs s) s = subsAdd subs s)
  ∧ (∀ (subs : List String) (s : String),
      subsDelete (subsDelete subs s) s = subsDelete subs s)
  ∧ (∀ (st : Registry) (cid : ClientId) (c : Client) (d : SubData),
      lookup st cid = some c →
      (handleSubscription cid d st).2
        = [.sent cid (.obj [("type", JSValue.str "subscription_confirmed"),
            ("subscriptions", JSValue.strs
              (getSubs (handleSubscription cid d st).1 cid))])]
      ∧ (handleUnsubscription cid d st).2
        = [.sent cid (.obj [("type", JSValue.str "unsubscription_confirmed"),
            ("subscriptions", JSValue.strs
              (getSubs (handleUnsubscription cid d st).1 cid))])]) := by
  refine ⟨?_, ?_, ?_, ?_⟩
  · intro st cid c h h0
    have e1 := getSubs_handleSubscription h (SubData.many ["a", "b"])
    have l1 := lookup_handleSubscription h (SubData.many ["a", "b"])
    rw [h0] at e1 l1
    have hv1 : subApply (SubData.many ["a", "b"]) [] = ["a", "b"] := by decide
    rw [hv1] at e1 l1
    have e2 := getSubs_handleUnsubscription l1 (SubData.one "a")
    have l2 := lookup_handleUnsubscription l1 (SubData.one "a")
    have hv2 : unsubApply (SubData.one "a") ["a", "b"] = ["b"] := by decide
    rw [hv2] at e2 l2
    have e3 := getSubs_handleUnsubscription l2 (SubData.one "a")
    have hv3 : unsubApply (SubData.one "a") ["b"] = ["b"] := by decide
    rw [hv3] at e3
    exact ⟨e1, e2, e3⟩
  · intro subs s
    have hmem : s ∈ subsAdd subs s := by
      unfold subsAdd
      split
      · next hc => exact List.elem_iff.mp hc
      · exact List.mem_append_right _ (by simp)
    generalize subsAdd subs s = t at hmem ⊢
    unfold subsAdd
    rw [if_pos (List.elem_iff.mpr hmem)]
  · intro subs s
    unfold subsDelete
    rw [List.filter_filter]
    congr 1
    funext x
    exact Bool.and_self _
  · intro st cid c d h
    refine ⟨?_, ?_⟩
    · rw [events_handleSubscription h d, getSubs_handleSubscription h d]
    · rw [events_handleUnsubscription h d, getSubs_handleUnsubscription h d]

/-- Witness for C6 on a one-client registry. -/
theorem c6_subscription_set_semantics_witness :
    getSubs ((handleUnsubscription "A" (SubData.one "a")
        (handleSubscription "A" (SubData.many ["a", "b"])
          [("A", ⟨WS_OPEN, []⟩)]).1).1) "A" = ["b"]
    ∧ getSubs ((handleUnsubscription "A" (SubData.one "a")
        ((handleUnsubscription "A" (SubData.one "a")
          (handleSubscription "A" (SubData.many ["a", "b"])
            [("A", ⟨WS_OPEN, []⟩)]).1).1)).1) "A" = ["b"] :=
  ⟨(c6_subscription_set_semantics.1 [("A", ⟨WS_OPEN, []⟩)] "A" ⟨WS_OPEN, []⟩
      (by decide) rfl).2.1,
   (c6_subscription_set_semantics.1 [("A", ⟨WS_OPEN, []⟩)] "A" ⟨WS_OPEN, []⟩
      (by decide) rfl).2.2⟩

/-- C7 counterexample: in the vr.js revision the zone validation of
sendPickUpFromZone is commented out, so the invalid zone blue raises no
error and is broadcast as-is. -/
theorem c7_send_api_counterexample :
    V1.sendPickUpFromZone "blue" "T"
      = Except.ok (JSData.obj [("type", JSValue.str "pickup_zone_update"),
          ("zone", JSValue.str "blue"), ("timestamp", JSValue.str "T")])
    ∧ (["red", "green", "yellow"] : List String).contains (jsToLower "blue")
        = false := by
  exact ⟨rfl, by decide⟩

/-- C7 (amended): sendSpeed raises unless the value is a number in [0.2, 1]
and sendErrors raises unless the count is a non-negative number; the zone
validation of sendPickUpFromZone is active only in the part_000 revision,
while the vr.js revision accepts any string zone because its check is
commented out; every call that raises no error broadcasts to all open
connections and returns the delivery count. -/
theorem c7_send_api :
    (∀ (v : JSValue) (now : String),
      (∃ d, V1.sendSpeed v now = Except.ok d) ↔
        ∃ q : ℚ, v = JSValue.num q ∧ 1/5 ≤ q ∧ q ≤ 1)
  ∧ (∀ (v : JSValue) (now : String),
      (∃ d, V1.sendErrors v now = Except.ok d) ↔
        ∃ q : ℚ, v = JSValue.num q ∧ 0 ≤ q)
  ∧ (∀ (zone now : String),
      (∃ d, P0.sendPickUpFromZone zone now = Except.ok d) ↔
        jsToLower zone ∈ ["red", "green", "yellow"])
  ∧ (∀ (zone now : String), ∃ d, V1.sendPickUpFromZone zone now = Except.ok d)
  ∧ (∀ (st : Registry) (B : ClientId) (c : Client),
      (B, c) ∈ st → c.readyState = WS_OPEN → B ∈ (broadcast st).delivered)
  ∧ (∀ st : Registry, (broadcast st).sentCount
      = (st.filter (fun p => p.2.readyState == WS_OPEN)).length) := by
  refine ⟨?_, ?_, ?_, ?_, ?_, ?_⟩
  · intro v now
    constructor
    · rintro ⟨d, hd⟩
      rcases v with q | s | b | _ | l
      · by_cases h : q < 1/5 ∨ 1 < q
        · simp only [V1.sendSpeed, if_pos h] at hd
          exact Except.noConfusion hd
        · push_neg at h
          exact ⟨q, rfl, h.1, h.2⟩
      · exact Except.noConfusion hd
      · exact Except.noConfusion hd
      · exact Except.noConfusion hd
      · exact Except.noConfusion hd
    · rintro ⟨q, rfl, h1, h2⟩
      simp only [V1.sendSpeed]
      rw [if_neg (by push_neg; exact ⟨h1, h2⟩)]
      exact ⟨_, rfl⟩
  · intro v now
    constructor
    · rintro ⟨d, hd⟩
      rcases v with q | s | b | _ | l
      · by_cases h : q < 0
        · simp only [V1.sendErrors, if_pos h] at hd
          exact Except.noConfusion hd
        · exact ⟨q, rfl, not_lt.mp h⟩
      · exact Except.noConfusion hd
      · exact Except.noConfusion hd
      · exact Except.noConfusion hd
      · exact Except.noConfusion hd
    · rintro ⟨q, rfl, h1⟩
      simp only [V1.sendErrors]
      rw [if_neg (not_lt.mpr h1)]
      exact ⟨_, rfl⟩
  · intro zone now
    by_cases h : (["red", "green", "yellow"].contains (jsToLower zone)) = true
    · simp only [P0.sendPickUpFromZone, if_pos h]
      exact iff_of_true ⟨_, rfl⟩ (List.elem_iff.mp h)
    · simp only [P0.sendPickUpFromZone, if_neg h]
      refine iff_of_false ?_ (fun hm => h (List.elem_iff.mpr hm))
      rintro ⟨d, hd⟩
      exact Except.noConfusion hd
  · intro zone now
    exact ⟨_, rfl⟩
  · intro st B c hmem hopen
    exact mem_broadcast_delivered.mpr ⟨c, hmem, hopen⟩
  · intro st
    rw [SendOutcome.sentCount, broadcast_delivered_eq, List.length_map]

/-- Witness for C7: a valid speed is accepted and an open client is counted
as a delivery target. -/
theorem c7_send_api_witness :
    (∃ d, V1.sendSpeed (JSValue.num (1/2)) "T" = Except.ok d)
    ∧ "B" ∈ (broadcast [("B", ⟨WS_OPEN, []⟩)]).delivered :=
  ⟨(c7_send_api.1 (JSValue.num (1/2)) "T").mpr ⟨1/2, rfl, by norm_num, by norm_num⟩,
   c7_send_api.2.2.2.2.1 [("B", ⟨WS_OPEN, []⟩)] "B" ⟨WS_OPEN, []⟩ (by decide) rfl⟩

/-- C8 counterexample: in the V1 revision a present-but-zero TotalReussite is
skipped by the truthiness test, so the broadcast carries TotalEchec even
though TotalReussite is the last-present field. -/
theorem c8_counter_last_field_counterexample :
    V1.handleCountersUpdate "A" (some (JSValue.num 5)) (some (JSValue.num 0))
        none "T"
      = [.broadcastExc "A" (counterFrame "TotalEchec" (JSValue.num 5) "A" "T")]
    ∧ lastPresentCounter "A" (some (JSValue.num 5)) (some (JSValue.num 0)) none "T"
      = counterFrame "TotalReussite" (JSValue.num 0) "A" "T"
    ∧ V1.handleCountersUpdate "A" (some (JSValue.num 5)) (some (JSValue.num 0))
        none "T"
      ≠ [.broadcastExc "A" (lastPresentCounter "A" (some (JSValue.num 5))
          (some (JSValue.num 0)) none "T")] := by
  have h5 : truthy (JSValue.num 5) = true := by simp [truthy]
  have h0 : truthy (JSValue.num 0) = false := by simp [truthy]
  have h1 : V1.handleCountersUpdate "A" (some (JSValue.num 5))
      (some (JSValue.num 0)) none "T"
      = [.broadcastExc "A" (counterFrame "TotalEchec" (JSValue.num 5) "A" "T")] := by
    simp [V1.handleCountersUpdate, h5, h0]
  refine ⟨h1, rfl, ?_⟩
  rw [h1]
  intro h
  simp [counterFrame, lastPresentCounter] at h

/-- C8 (amended): every counter message triggers exactly one broadcast call;
in the V2 revision, which tests presence with an undefined check, the
broadcast carries the last-present field in the order TotalEchec,
TotalReussite, TotalOublie, while in the V1 revision, which tests
truthiness, it carries the last truthy field and a present falsy field is
skipped. -/
theorem c8_counter_last_field :
    (∀ (cid : ClientId) (now : String) (a b c : Option JSValue),
      V2.handleCountersUpdate cid a b c now
        = [.broadcastExc cid (lastPresentCounter cid a b c now)])
  ∧ (∀ (cid : ClientId) (now : String) (a b c : Option JSValue),
      V1.handleCountersUpdate cid a b c now
        = [.broadcastExc cid (lastTruthyCounter cid a b c now)]) := by
  constructor
  · intro cid now a b c
    rcases a with _ | va <;> rcases b with _ | vb <;> rcases c with _ | vc <;> rfl
  · intro cid now a b c
    rcases a with _ | va <;> rcases b with _ | vb <;> rcases c with _ | vc
    · rfl
    · by_cases hC : truthy vc <;>
        simp [V1.handleCountersUpdate, lastTruthyCounter, otruthy, hC]
    · by_cases hB : truthy vb <;>
        simp [V1.handleCountersUpdate, lastTruthyCounter, otruthy, hB]
    · by_cases hB : truthy vb <;> by_cases hC : truthy vc <;>
        simp [V1.handleCountersUpdate, lastTruthyCounter, otruthy, hB, hC]
    · by_cases hA : truthy va <;>
        simp [V1.handleCountersUpdate, lastTruthyCounter, otruthy, hA]
    · by_cases hA : truthy va <;> by_cases hC : truthy vc <;>
        simp [V1.handleCountersUpdate, lastTruthyCounter, otruthy, hA, hC]
    · by_cases hA : truthy va <;> by_cases hB : truthy vb <;>
        simp [V1.handleCountersUpdate, lastTruthyCounter, otruthy, hA, hB]
    · by_cases hA : truthy va <;> by_cases hB : truthy vb <;>
        by_cases hC : truthy vc <;>
        simp [V1.handleCountersUpdate, lastTruthyCounter, otruthy, hA, hB, hC]

/-- C1 counterexample: a valid counter message from a registered sender is
broadcast but no confirmation of any kind is sent back to the sender, so the
uniform broadcast-and-confirm protocol does not hold for the counter
handler. -/
theorem c1_handler_protocol_counterexample :
    V2.handleCountersUpdate "A" (some (JSValue.num 5)) none none "T"
      = [.broadcastExc "A" (counterFrame "TotalEchec" (JSValue.num 5) "A" "T")]
    ∧ (V2.handleCountersUpdate "A" (some (JSValue.num 5)) none none "T").all
        (fun e => !e.isSent) = true :=
  ⟨rfl, rfl⟩

/-- C1 (amended): the speed, table/debit, game-start, game-end, zone-toggle,
product-destroyed, hand-pickup and emergency-stop handlers follow the
uniform protocol — validate, broadcast the typed frame with timestamp and
source to every open connection except the sender, and send the
type-plus-confirmed frame with the same payload to the sender only, with
only an error reply on validation failure; the counter and zone-entered
handlers broadcast without ever sending a confirmation (V1's zone-entered
even excludes the literal string zone_entered instead of the sender), and
part_000's sorted-objects handler broadcasts to topic subscribers instead. -/
theorem c1_handler_protocol :
    (∀ (cid : ClientId) (now : String) (q : ℚ), ¬(q < 1/5 ∨ 1 < q) →
      handleSpeedUpdate cid (some (JSValue.num q)) now
        = protocolEvents "speed_update" [("speed", JSValue.num q)] cid now)
  ∧ (∀ (cid : ClientId) (now : String) (v : Option JSValue),
      V1.handleTableUpdate cid v now
        = protocolEvents "debit_update" (optField "debit" v) cid now)
  ∧ (∀ (cid : ClientId) (now : String) (v : Option JSValue),
      V2.handleTableUpdate cid v now
        = protocolEvents "table_update" (optField "table" v) cid now)
  ∧ (∀ (cid : ClientId) (now : String) (v : Option JSValue),
      V1.handleGameStartUpdate cid v now
        = protocolEvents "game_start_update" (optField "isGameStarted" v) cid now)
  ∧ (∀ (cid : ClientId) (now : String) (b : Bool),
      V2.handleGameStartUpdate cid (some (JSValue.bool b)) now
        = protocolEvents "game_start_update" [("gameStart", JSValue.bool b)] cid now)
  ∧ (∀ (cid : ClientId) (now : String) (v : Option JSValue),
      handleGameEndUpdate cid v now
        = protocolEvents "game_end_update" (optField "isGameOver" v) cid now)
  ∧ (∀ (cid : ClientId) (now : String) (v : Option JSValue),
      handleZonesToggleUpdate cid v now
        = protocolEvents "zones_toggle_update" (optField "isZoneOn" v) cid now)
  ∧ (∀ (cid : ClientId) (now : String) (v : Option JSValue),
      handleProductsUpdate cid v now
        = protocolEvents "DestroyedTrash" (optField "object_name" v) cid now)
  ∧ (∀ (cid : ClientId) (now : String) (v : Option JSValue),
      V2.handleEmergencyStop cid v now
        = protocolEvents "emergency_stop" (optField "isEmergencyStop" v) cid now)
  ∧ (∀ (cid : ClientId) (now : String) (h : String) (q : ℚ),
      (h = "left" ∨ h = "right") → 0 ≤ q →
      V2.handleHandPickupObject cid (some (JSValue.str h))
          (some (JSValue.num q)) now
        = protocolEvents "hand_pickup_object"
            [("hand", JSValue.str h), ("handCount", JSValue.num q)] cid now)
  ∧ (∀ (cid : ClientId) (now : String) (q : ℚ), (q < 1/5 ∨ 1 < q) →
      handleSpeedUpdate cid (some (JSValue.num q)) now
        = [.sent cid (errorFrame speedErrMsg)])
  ∧ (∀ (cid : ClientId) (now : String) (v : Option JSValue),
      V2.handleGameStartUpdate cid v now
          = [.sent cid (errorFrame gameStartErrMsg)]
        ∨ ∃ b, v = some (JSValue.bool b))
  ∧ (∀ (cid : ClientId) (now : String) (a b c : Option JSValue),
      ∃ d, V2.handleCountersUpdate cid a b c now = [.broadcastExc cid d])
  ∧ (∀ (cid : ClientId) (now : String) (a b c : Option JSValue),
      ∃ d, V1.handleCountersUpdate cid a b c now = [.broadcastExc cid d])
  ∧ (∀ (cid : ClientId) (now : String) (g r o : Option JSValue),
      (V2.handleZoneEntered cid g r o now).all (fun e => !e.isSent) = true)
  ∧ (∀ (cid : ClientId) (now : String) (g r y : Option JSValue),
      ∃ d, V1.handleZoneEntered cid g r y now
        = [.broadcastExc "zone_entered" d])
  ∧ (∀ (cid : ClientId) (now : String) (v : Option JSValue),
      P0.handleSortedObjectsUpdate cid v now
        = [.broadcastTopic "sorted_objects_update"
            (.obj (("type", JSValue.str "sorted_objects_update") ::
              optField "sortedObjectType" v ++
              [("timestamp", JSValue.str now), ("source", JSValue.str cid)]))])
  ∧ (∀ (ty : String) (payload : List (String × JSValue)) (cid : ClientId)
        (now : String) (st : Registry) (B : ClientId) (c : Client),
      (B, c) ∈ st → B ≠ cid → c.readyState = WS_OPEN →
      (B, relayFrame ty payload cid now)
        ∈ (runEvents st (protocolEvents ty payload cid now)).2)
  ∧ (∀ (ty : String) (payload : List (String × JSValue)) (cid : ClientId)
        (now : String) (st : Registry) (d : JSData),
      (cid, d) ∈ (runEvents st (protocolEvents ty payload cid now)).2 →
      d = confirmFrame ty payload now) := by
  refine ⟨?_, ?_, ?_, ?_, ?_, ?_, ?_, ?_, ?_, ?_, ?_, ?_, ?_, ?_, ?_, ?_, ?_,
    ?_, ?_⟩
  · intro cid now q h
    simp only [handleSpeedUpdate, if_neg h]
    rfl
  · intro cid now v
    rfl
  · intro cid now v
    rfl
  · intro cid now v
    rfl
  · intro cid now b
    rfl
  · intro cid now v
    rfl
  · intro cid now v
    rfl
  · intro cid now v
    rfl
  · intro cid now v
    rfl
  · intro cid now h q hside hq
    rcases hside with rfl | rfl
    · simp only [V2.handleHandPickupObject]
      rw [if_neg (by decide : ¬(("left" : String) ≠ "left"
        ∧ ("left" : String) ≠ "right"))]
      rw [if_neg (not_lt.mpr hq)]
      rfl
    · simp only [V2.handleHandPickupObject]
      rw [if_neg (by decide : ¬(("right" : String) ≠ "left"
        ∧ ("right" : String) ≠ "right"))]
      rw [if_neg (not_lt.mpr hq)]
      rfl
  · intro cid now q h
    simp only [handleSpeedUpdate, if_pos h]
  · intro cid now v
    rcases v with _ | w
    · exact Or.inl rfl
    · rcases w with q | s | b | _ | l
      · exact Or.inl rfl
      · exact Or.inl rfl
      · exact Or.inr ⟨b, rfl⟩
      · exact Or.inl rfl
      · exact Or.inl rfl
  · intro cid now a b c
    exact ⟨_, rfl⟩
  · intro cid now a b c
    exact ⟨_, rfl⟩
  · intro cid now g r o
    rcases g with _ | vg <;> rcases r with _ | vr <;> rcases o with _ | vo <;> rfl
  · intro cid now g r y
    exact ⟨_, rfl⟩
  · intro cid now v
    rfl
  · intro ty payload cid now st B c hmem hne hopen
    have hr := runEvents_protocol ty payload cid now st
    rw [hr]
    refine List.mem_append_left _ ?_
    exact List.mem_map_of_mem _
      (mem_broadcastExcluding_delivered.mpr ⟨c, hmem, hne, hopen⟩)
  · intro ty payload cid now st d hd
    have hd2 : (cid, d) ∈
        ((broadcastExcluding cid st).delivered.map
          (fun b => (b, relayFrame ty payload cid now)))
        ++ (if sendToClient cid (broadcastExcluding cid st).clients then
              [(cid, confirmFrame ty payload now)] else []) := by
      rw [runEvents_protocol] at hd
      exact hd
    rcases List.mem_append.mp hd2 with hL | hR
    · exfalso
      rcases List.mem_map.mp hL with ⟨b, hb, he⟩
      have hbc : b = cid := congrArg Prod.fst he
      rw [hbc] at hb
      exact excluded_not_mem_delivered cid st hb
    · by_cases hs : sendToClient cid (broadcastExcluding cid st).clients = true
      · rw [if_pos hs] at hR
        have he := List.mem_singleton.mp hR
        exact (Prod.mk.injEq _ _ _ _ ▸ he).2
      · rw [if_neg hs] at hR
        exact absurd hR (List.not_mem_nil _)

/-- Witness for C1: a valid speed update runs the protocol events. -/
theorem c1_handler_protocol_witness :
    handleSpeedUpdate "A" (some (JSValue.num (1/2))) "T"
      = protocolEvents "speed_update" [("speed", JSValue.num (1/2))] "A" "T" :=
  c1_handler_protocol.1 "A" "T" (1/2) (by norm_num)

end WsBackend
